import Mathlib

/-!
Verification development for the Lab_10 notebook
(`src/2425/L10_image_retrival_image_qa/Lab_10.ipynb`).

The notebook has exactly four code cells:
 * an imports-only cell;
 * a first CLIP similarity cell (loads `CLIPModel` and `CLIPProcessor`,
   opens `cat.jpg`, preprocesses, runs the forward pass, prints the
   softmax of `logits_per_image`);
 * a second CLIP similarity cell (same pipeline on `cat_dog.jpg`, reusing
   the model and processor loaded by the first cell);
 * a BLIP VQA cell (defines `perform_blip_qa` and calls it on `cat.jpg`).

The external libraries (PIL, transformers, torch) are modelled by an
oracle structure `Ext` whose fallible operations return `Except`.  The
notebook's own code is embedded as Lean functions over that oracle, plus
a statement-kind transcription of each cell for the structural claims.
-/

set_option autoImplicit false

namespace Lab10

/-- A PIL image: its mode string (`"RGB"`, `"L"`, `"RGBA"`, `"P"`, ...)
and an abstract pixel-content identifier. -/
structure ImageV where
  mode : String
  pix : Nat
deriving DecidableEq, Repr

/-- `img.convert("RGB")`: same pixel content, mode forced to `"RGB"`. -/
def convertRGB (i : ImageV) : ImageV :=
  { mode := "RGB", pix := i.pix }

/-- The tensor batch produced by a processor call: the (mode, content) of
the image it was given and the text strings it was given. -/
structure Encoding where
  imgMode : String
  imgPix : Nat
  txts : List String
deriving DecidableEq, Repr

/-- The external-library oracle.  Model and processor handles are opaque
strings; every operation that can raise a Python exception returns
`Except String`, the error value standing for the raised exception. -/
structure Ext where
  /-- `SomeModel.from_pretrained(name)` (class name, checkpoint name). -/
  loadModel : String → String → Except String String
  /-- `SomeProcessor.from_pretrained(name)`. -/
  loadProcessor : String → String → Except String String
  /-- `Image.open(path)`. -/
  openImage : String → Except String ImageV
  /-- `processor(text=texts, images=image, return_tensors="pt", padding=True)`. -/
  clipProcess : String → List String → ImageV → Except String Encoding
  /-- `model(**inputs).logits_per_image` — the single row of image-to-text
  similarity scores. -/
  clipForward : String → Encoding → Except String (List ℚ)
  /-- `processor(image, question, return_tensors="pt")`. -/
  blipProcess : String → ImageV → String → Except String Encoding
  /-- `model.generate(**inputs)` — the batch of generated token sequences. -/
  blipGenerate : String → Encoding → Except String (List (List Nat))
  /-- `processor.decode(tokens, skip_special_tokens=flag)`. -/
  decode : String → List Nat → Bool → String

/-- `t.softmax(dim=1)` on the single row `l`, with the exponential map
abstracted as a parameter `e` (the code's `exp`; only its positivity
matters for the claims). -/
def softmax (e : ℚ → ℚ) (l : List ℚ) : List ℚ :=
  l.map (fun x => e x / (l.map e).sum)

/-- The tail of each CLIP similarity cell, after the image is in hand:
`inputs = processor(text=..., images=image, ...)`;
`outputs = model(**inputs)`; `logits_per_image = outputs.logits_per_image`;
`print(logits_per_image.softmax(dim=1))`.  The returned list is the
printed row of probabilities. -/
def clipAfterOpen (E : Ext) (e : ℚ → ℚ) (mdl proc : String)
    (texts : List String) (image : ImageV) : Except String (List ℚ) :=
  match E.clipProcess proc texts image with
  | .error err => .error err
  | .ok inputs =>
    match E.clipForward mdl inputs with
    | .error err => .error err
    | .ok logits_per_image => .ok (softmax e logits_per_image)

/-- The CLIP similarity pipeline shared by both CLIP cells, given already
loaded model and processor handles: open the image at `path`, then
preprocess, forward, softmax, print.  Note the image is passed to the
processor exactly as opened — no `.convert("RGB")` here. -/
def clipSimilarity (E : Ext) (e : ℚ → ℚ) (mdl proc : String)
    (texts : List String) (path : String) : Except String (List ℚ) :=
  match E.openImage path with
  | .error err => .error err
  | .ok image => clipAfterOpen E e mdl proc texts image

/-- The first CLIP similarity cell:
`model = CLIPModel.from_pretrained("openai/clip-vit-base-patch32")`;
`processor = CLIPProcessor.from_pretrained("openai/clip-vit-base-patch32")`;
`texts = ["A photo of a cat", "A photo of a dog"]`;
`image = Image.open("cat.jpg")`; then preprocess, forward, print softmax. -/
def clipCell1 (E : Ext) (e : ℚ → ℚ) : Except String (List ℚ) :=
  match E.loadModel "CLIPModel" "openai/clip-vit-base-patch32" with
  | .error err => .error err
  | .ok model =>
    match E.loadProcessor "CLIPProcessor" "openai/clip-vit-base-patch32" with
    | .error err => .error err
    | .ok processor =>
      clipSimilarity E e model processor
        ["A photo of a cat", "A photo of a dog"] "cat.jpg"

/-- The second CLIP similarity cell: same texts, image `cat_dog.jpg`,
and it loads nothing — `model` and `processor` are the globals left over
from the first CLIP cell, passed in here as arguments. -/
def clipCell2 (E : Ext) (e : ℚ → ℚ) (model processor : String) :
    Except String (List ℚ) :=
  clipSimilarity E e model processor
    ["A photo of a cat", "A photo of a dog"] "cat_dog.jpg"

/-- The body of `perform_blip_qa` after the two loads and the image load:
`inputs = processor(image, question, return_tensors="pt")`;
`with torch.no_grad(): generated_ids = model.generate(**inputs)`;
`answer = processor.decode(generated_ids[0], skip_special_tokens=True)`;
`return answer`.  Python's `generated_ids[0]` raises `IndexError` on an
empty batch, modelled by the `[]` branch. -/
def blipAfterLoad (E : Ext) (processor model : String) (image : ImageV)
    (question : String) : Except String String :=
  match E.blipProcess processor image question with
  | .error err => .error err
  | .ok inputs =>
    match E.blipGenerate model inputs with
    | .error err => .error err
    | .ok generated_ids =>
      match generated_ids with
      | [] => .error "IndexError"
      | g0 :: _ => .ok (E.decode processor g0 true)

/-- `perform_blip_qa(image_path, question)`:
`processor = BlipProcessor.from_pretrained("Salesforce/blip-vqa-base")`;
`model = BlipForQuestionAnswering.from_pretrained("Salesforce/blip-vqa-base")`;
`image = Image.open(image_path).convert("RGB")`; then the tail above. -/
def performBlipQa (E : Ext) (image_path question : String) :
    Except String String :=
  match E.loadProcessor "BlipProcessor" "Salesforce/blip-vqa-base" with
  | .error err => .error err
  | .ok processor =>
    match E.loadModel "BlipForQuestionAnswering" "Salesforce/blip-vqa-base" with
    | .error err => .error err
    | .ok model =>
      match E.openImage image_path with
      | .error err => .error err
      | .ok image => blipAfterLoad E processor model (convertRGB image) question

/-- `perform_blip_qa` with the notebook's global namespace threaded
through explicitly (any type `σ`).  The Python body contains no `global`
statement and no assignment outside its own local scope, so the state is
passed through every step untouched. -/
def performBlipQaSt {σ : Type} (E : Ext) (g : σ) (image_path question : String) :
    Except String (String × σ) :=
  match E.loadProcessor "BlipProcessor" "Salesforce/blip-vqa-base" with
  | .error err => .error err
  | .ok processor =>
    match E.loadModel "BlipForQuestionAnswering" "Salesforce/blip-vqa-base" with
    | .error err => .error err
    | .ok model =>
      match E.openImage image_path with
      | .error err => .error err
      | .ok image =>
        match E.blipProcess processor (convertRGB image) question with
        | .error err => .error err
        | .ok inputs =>
          match E.blipGenerate model inputs with
          | .error err => .error err
          | .ok generated_ids =>
            match generated_ids with
            | [] => .error "IndexError"
            | g0 :: _ => .ok (E.decode processor g0 true, g)

/-- The kind of one Python statement (or sub-operation of a compound
statement), as written in the notebook's code cells. -/
inductive StmtKind where
  /-- An `import` or `from ... import ...` line. -/
  | importK
  /-- A plain assignment of an expression to a variable. -/
  | assignK
  /-- `Cls.from_pretrained(name)` — network/cache fetch of pretrained
  weights (class name, checkpoint name). -/
  | loadK (cls name : String)
  /-- `Image.open(path)` — local file read; `none` means the argument is
  the caller-supplied variable `image_path`. -/
  | openK (path : Option String)
  /-- `.convert("RGB")` applied to the opened image. -/
  | convertRGBK
  /-- A processor call producing tensors. -/
  | processK
  /-- A model forward pass, with whether gradient tracking is enabled. -/
  | forwardK (grad : Bool)
  /-- A `model.generate(...)` call, with whether gradient tracking is
  enabled. -/
  | generateK (grad : Bool)
  /-- `print(logits.softmax(dim=1))` — softmax post-processing and stdout
  print in one statement. -/
  | printSoftmaxK
  /-- `processor.decode(ids, skip_special_tokens=flag)`. -/
  | decodeK (skipSpecial : Bool)
  /-- A `return` statement. -/
  | returnK
  /-- The `def perform_blip_qa(...)` statement (its body is transcribed
  separately as `performBlipQaStmts`). -/
  | defQaK
  /-- The call `perform_blip_qa(image_path, question)`. -/
  | callQaK
  /-- A `print(...)` of a string. -/
  | printK
  /-- A `try`/`except` statement.  The notebook never uses one. -/
  | tryK
deriving DecidableEq, Repr

/-- The imports cell (`cell-2`): six import lines, nothing else. -/
def importsCellStmts : List StmtKind :=
  [.importK, .importK, .importK, .importK, .importK, .importK]

/-- The first CLIP similarity cell (`cell-11`), statement by statement. -/
def clipCell1Stmts : List StmtKind :=
  [.importK, .importK,
   .loadK "CLIPModel" "openai/clip-vit-base-patch32",
   .loadK "CLIPProcessor" "openai/clip-vit-base-patch32",
   .assignK,
   .openK (some "cat.jpg"),
   .processK,
   .forwardK true,
   .assignK,
   .printSoftmaxK]

/-- The second CLIP similarity cell (`cell-12`): no import, no
`from_pretrained` — it reuses the first cell's `model` and `processor`. -/
def clipCell2Stmts : List StmtKind :=
  [.assignK,
   .openK (some "cat_dog.jpg"),
   .processK,
   .forwardK true,
   .assignK,
   .printSoftmaxK]

/-- The body of `perform_blip_qa`, statement by statement.  The image
statement `Image.open(image_path).convert("RGB")` contributes two
operations; `model.generate` sits under `with torch.no_grad():`, so its
grad flag is `false`. -/
def performBlipQaStmts : List StmtKind :=
  [.loadK "BlipProcessor" "Salesforce/blip-vqa-base",
   .loadK "BlipForQuestionAnswering" "Salesforce/blip-vqa-base",
   .openK none,
   .convertRGBK,
   .processK,
   .generateK false,
   .decodeK true,
   .returnK]

/-- The BLIP VQA cell (`cell-21`) at top level: three imports, the
function definition, the `if __name__ == "__main__":` block's two
assignments, the call, and two prints. -/
def blipCellStmts : List StmtKind :=
  [.importK, .importK, .importK,
   .defQaK,
   .assignK, .assignK,
   .callQaK,
   .printK, .printK]

/-- The notebook's code cells, in order. -/
def notebookCodeCells : List (List StmtKind) :=
  [importsCellStmts, clipCell1Stmts, clipCell2Stmts, blipCellStmts]

/-- Every statement list in the notebook, the `perform_blip_qa` body
included. -/
def allStmtLists : List (List StmtKind) :=
  notebookCodeCells ++ [performBlipQaStmts]

/-- The `from_pretrained` calls of a statement list, in order. -/
def loads (l : List StmtKind) : List (String × String) :=
  l.filterMap fun s =>
    match s with
    | .loadK cls name => some (cls, name)
    | _ => none

/-- Whether a statement is an interaction with the outside world: a
weights fetch, a local file read, or a stdout print.  Everything else in
the notebook is in-process computation. -/
def externalKind : StmtKind → Bool
  | .loadK _ _ => true
  | .openK _ => true
  | .printSoftmaxK => true
  | .printK => true
  | _ => false

/-- Whether a statement is a model forward or generate call. -/
def isInfer : StmtKind → Bool
  | .forwardK _ => true
  | .generateK _ => true
  | _ => false

/-- Whether a statement is a `from_pretrained` model/processor load. -/
def isLoad : StmtKind → Bool
  | .loadK _ _ => true
  | _ => false

/-- The phase of a statement in the `load model → preprocess input →
run inference → post-process/display` pipeline (`none` for imports,
plain assignments and control statements). -/
def infPhase : StmtKind → Option Nat
  | .loadK _ _ => some 0
  | .openK _ => some 1
  | .convertRGBK => some 1
  | .processK => some 1
  | .forwardK _ => some 2
  | .generateK _ => some 2
  | .printSoftmaxK => some 3
  | .decodeK _ => some 3
  | _ => none

/-- The pipeline phases of a cell's statements, in source order. -/
def phaseSeq (l : List StmtKind) : List Nat :=
  l.filterMap infPhase

/-- `softmax` returns one probability per logit. -/
theorem softmax_length (e : ℚ → ℚ) (l : List ℚ) :
    (softmax e l).length = l.length := by
  simp [softmax]

theorem sum_map_div (l : List ℚ) (f : ℚ → ℚ) (S : ℚ) :
    (l.map (fun x => f x / S)).sum = (l.map f).sum / S := by
  induction l with
  | nil => simp
  | cons a t ih => simp [ih, add_div]

theorem sum_map_pos (e : ℚ → ℚ) (he : ∀ x, 0 < e x) (l : List ℚ)
    (hl : l ≠ []) : 0 < (l.map e).sum := by
  cases l with
  | nil => exact absurd rfl hl
  | cons a t =>
    simp only [List.map_cons, List.sum_cons]
    have ht : 0 ≤ (t.map e).sum := by
      apply List.sum_nonneg
      intro x hx
      obtain ⟨y, _, rfl⟩ := List.mem_map.mp hx
      exact le_of_lt (he y)
    exact add_pos_of_pos_of_nonneg (he a) ht

/-- Every entry of a softmax with positive exponential is nonnegative. -/
theorem softmax_mem_nonneg (e : ℚ → ℚ) (he : ∀ x, 0 < e x) (l : List ℚ)
    (p : ℚ) (hp : p ∈ softmax e l) : 0 ≤ p := by
  obtain ⟨x, hx, rfl⟩ := List.mem_map.mp hp
  have hl : l ≠ [] := List.ne_nil_of_mem hx
  exact le_of_lt (div_pos (he x) (sum_map_pos e he l hl))

/-- The entries of a softmax with positive exponential sum to `1`. -/
theorem softmax_sum_one (e : ℚ → ℚ) (he : ∀ x, 0 < e x) (l : List ℚ)
    (hl : l ≠ []) : (softmax e l).sum = 1 := by
  unfold softmax
  rw [sum_map_div]
  exact div_self (ne_of_gt (sum_map_pos e he l hl))

/-- A concrete oracle on which every external call succeeds: loads hand
back the checkpoint name, `Image.open` yields a grayscale image, the
processors record exactly what they were given, the CLIP forward pass
returns one zero logit per text, generation returns one token sequence. -/
def extOK : Ext where
  loadModel := fun _ name => .ok name
  loadProcessor := fun _ name => .ok name
  openImage := fun _ => .ok { mode := "L", pix := 7 }
  clipProcess := fun _ ts i => .ok { imgMode := i.mode, imgPix := i.pix, txts := ts }
  clipForward := fun _ enc => .ok (enc.txts.map (fun _ => 0))
  blipProcess := fun _ i q => .ok { imgMode := i.mode, imgPix := i.pix, txts := [q] }
  blipGenerate := fun _ _ => .ok [[5, 2]]
  decode := fun _ _ _ => "orange and white"

/-- `extOK` with `Image.open` raising `FileNotFoundError`. -/
def extNoFile : Ext :=
  { extOK with openImage := fun _ => .error "FileNotFoundError" }

/-- `extOK` with every `from_pretrained` raising a connection error. -/
def extNoNet : Ext :=
  { extOK with
    loadModel := fun _ _ => .error "ConnectionError"
    loadProcessor := fun _ _ => .error "ConnectionError" }

theorem clipSimilarity_open_error (E : Ext) (e : ℚ → ℚ) (mdl proc : String)
    (texts : List String) (path err : String)
    (h : E.openImage path = .error err) :
    clipSimilarity E e mdl proc texts path = .error err := by
  unfold clipSimilarity; rw [h]

theorem clipSimilarity_open_ok (E : Ext) (e : ℚ → ℚ) (mdl proc : String)
    (texts : List String) (path : String) (image : ImageV)
    (h : E.openImage path = .ok image) :
    clipSimilarity E e mdl proc texts path =
      clipAfterOpen E e mdl proc texts image := by
  unfold clipSimilarity; rw [h]

theorem clipAfterOpen_process_error (E : Ext) (e : ℚ → ℚ) (mdl proc : String)
    (texts : List String) (image : ImageV) (err : String)
    (h : E.clipProcess proc texts image = .error err) :
    clipAfterOpen E e mdl proc texts image = .error err := by
  unfold clipAfterOpen; rw [h]

theorem clipAfterOpen_forward_error (E : Ext) (e : ℚ → ℚ) (mdl proc : String)
    (texts : List String) (image : ImageV) (inputs : Encoding) (err : String)
    (h1 : E.clipProcess proc texts image = .ok inputs)
    (h2 : E.clipForward mdl inputs = .error err) :
    clipAfterOpen E e mdl proc texts image = .error err := by
  unfold clipAfterOpen; simp only [h1]; rw [h2]

theorem clipAfterOpen_ok (E : Ext) (e : ℚ → ℚ) (mdl proc : String)
    (texts : List String) (image : ImageV) (inputs : Encoding)
    (logits : List ℚ)
    (h1 : E.clipProcess proc texts image = .ok inputs)
    (h2 : E.clipForward mdl inputs = .ok logits) :
    clipAfterOpen E e mdl proc texts image = .ok (softmax e logits) := by
  unfold clipAfterOpen; simp only [h1]; rw [h2]

theorem clipCell1_loadModel_error (E : Ext) (e : ℚ → ℚ) (err : String)
    (h : E.loadModel "CLIPModel" "openai/clip-vit-base-patch32" = .error err) :
    clipCell1 E e = .error err := by
  unfold clipCell1; rw [h]

theorem clipCell1_loadProcessor_error (E : Ext) (e : ℚ → ℚ)
    (model err : String)
    (h1 : E.loadModel "CLIPModel" "openai/clip-vit-base-patch32" = .ok model)
    (h2 : E.loadProcessor "CLIPProcessor" "openai/clip-vit-base-patch32" =
      .error err) :
    clipCell1 E e = .error err := by
  unfold clipCell1; rw [h1, h2]

theorem clipCell1_loads_ok (E : Ext) (e : ℚ → ℚ) (model processor : String)
    (h1 : E.loadModel "CLIPModel" "openai/clip-vit-base-patch32" = .ok model)
    (h2 : E.loadProcessor "CLIPProcessor" "openai/clip-vit-base-patch32" =
      .ok processor) :
    clipCell1 E e = clipSimilarity E e model processor
      ["A photo of a cat", "A photo of a dog"] "cat.jpg" := by
  unfold clipCell1; rw [h1, h2]

theorem performBlipQa_loadProcessor_error (E : Ext) (p q err : String)
    (h : E.loadProcessor "BlipProcessor" "Salesforce/blip-vqa-base" =
      .error err) :
    performBlipQa E p q = .error err := by
  unfold performBlipQa; rw [h]

theorem performBlipQa_loadModel_error (E : Ext) (p q processor err : String)
    (h1 : E.loadProcessor "BlipProcessor" "Salesforce/blip-vqa-base" =
      .ok processor)
    (h2 : E.loadModel "BlipForQuestionAnswering" "Salesforce/blip-vqa-base" =
      .error err) :
    performBlipQa E p q = .error err := by
  unfold performBlipQa; rw [h1, h2]

theorem performBlipQa_open_error (E : Ext) (p q processor model err : String)
    (h1 : E.loadProcessor "BlipProcessor" "Salesforce/blip-vqa-base" =
      .ok processor)
    (h2 : E.loadModel "BlipForQuestionAnswering" "Salesforce/blip-vqa-base" =
      .ok model)
    (h3 : E.openImage p = .error err) :
    performBlipQa E p q = .error err := by
  unfold performBlipQa; rw [h1, h2, h3]

theorem performBlipQa_loads_ok (E : Ext) (p q processor model : String)
    (image : ImageV)
    (h1 : E.loadProcessor "BlipProcessor" "Salesforce/blip-vqa-base" =
      .ok processor)
    (h2 : E.loadModel "BlipForQuestionAnswering" "Salesforce/blip-vqa-base" =
      .ok model)
    (h3 : E.openImage p = .ok image) :
    performBlipQa E p q =
      blipAfterLoad E processor model (convertRGB image) q := by
  unfold performBlipQa; rw [h1, h2, h3]

theorem blipAfterLoad_process_error (E : Ext) (processor model q err : String)
    (image : ImageV)
    (h : E.blipProcess processor image q = .error err) :
    blipAfterLoad E processor model image q = .error err := by
  unfold blipAfterLoad; rw [h]

theorem blipAfterLoad_generate_error (E : Ext) (processor model q err : String)
    (image : ImageV) (inputs : Encoding)
    (h1 : E.blipProcess processor image q = .ok inputs)
    (h2 : E.blipGenerate model inputs = .error err) :
    blipAfterLoad E processor model image q = .error err := by
  unfold blipAfterLoad; simp only [h1]; rw [h2]

theorem blipAfterLoad_generate_ok (E : Ext) (processor model q : String)
    (image : ImageV) (inputs : Encoding) (g0 : List Nat)
    (rest : List (List Nat))
    (h1 : E.blipProcess processor image q = .ok inputs)
    (h2 : E.blipGenerate model inputs = .ok (g0 :: rest)) :
    blipAfterLoad E processor model image q =
      .ok (E.decode processor g0 true) := by
  unfold blipAfterLoad; simp only [h1]; rw [h2]

/-- Claim C1: for every image and non-empty list of candidate texts fed
to the CLIP similarity pipeline (the pipeline both CLIP cells run), the
printed result is the softmax of `outputs.logits_per_image`: one entry
per candidate text, every entry nonnegative, and the entries summing
to 1.  The hypotheses are the external library's contracts: the
exponential is positive, the processor encodes exactly the given texts,
and `logits_per_image` has one score per encoded text. -/
theorem clip_prints_normalized_similarity (E : Ext) (e : ℚ → ℚ)
    (mdl proc : String) (texts : List String) (path : String)
    (probs : List ℚ)
    (htexts : texts ≠ [])
    (he : ∀ x, 0 < e x)
    (hproc : ∀ img enc, E.clipProcess proc texts img = .ok enc → enc.txts = texts)
    (hfwd : ∀ enc l, E.clipForward mdl enc = .ok l → l.length = enc.txts.length)
    (hrun : clipSimilarity E e mdl proc texts path = .ok probs) :
    (∃ enc logits, E.clipForward mdl enc = .ok logits ∧
      probs = softmax e logits) ∧
    probs.length = texts.length ∧
    (∀ p ∈ probs, 0 ≤ p) ∧
    probs.sum = 1 := by
  cases himg : E.openImage path with
  | error err =>
    rw [clipSimilarity_open_error E e mdl proc texts path err himg] at hrun
    exact absurd hrun (by simp)
  | ok image =>
    rw [clipSimilarity_open_ok E e mdl proc texts path image himg] at hrun
    cases henc : E.clipProcess proc texts image with
    | error err =>
      rw [clipAfterOpen_process_error E e mdl proc texts image err henc] at hrun
      exact absurd hrun (by simp)
    | ok inputs =>
      cases hlog : E.clipForward mdl inputs with
      | error err =>
        rw [clipAfterOpen_forward_error E e mdl proc texts image inputs err
          henc hlog] at hrun
        exact absurd hrun (by simp)
      | ok logits =>
        rw [clipAfterOpen_ok E e mdl proc texts image inputs logits
          henc hlog] at hrun
        have hprobs : probs = softmax e logits := (Except.ok.inj hrun).symm
        have hlen : logits.length = texts.length := by
          rw [hfwd inputs logits hlog, hproc image inputs henc]
        have hlnil : logits ≠ [] := by
          intro h0
          rw [h0] at hlen
          exact htexts (List.eq_nil_of_length_eq_zero hlen.symm)
        subst hprobs
        refine ⟨⟨inputs, logits, hlog, rfl⟩, ?_, ?_, ?_⟩
        · rw [softmax_length, hlen]
        · exact fun p hp => softmax_mem_nonneg e he logits p hp
        · exact softmax_sum_one e he logits hlnil

/-- Witness for C1: on the all-succeeding oracle with unit exponential,
the first cell's texts and image path give the printed distribution
`[1/2, 1/2]`. -/
theorem clip_prints_normalized_similarity_witness :
    (∃ enc logits, extOK.clipForward "m" enc = .ok logits ∧
      ([(1 : ℚ)/2, 1/2] : List ℚ) = softmax (fun _ => 1) logits) ∧
    ([(1 : ℚ)/2, 1/2] : List ℚ).length =
      (["A photo of a cat", "A photo of a dog"] : List String).length ∧
    (∀ p ∈ ([(1 : ℚ)/2, 1/2] : List ℚ), 0 ≤ p) ∧
    ([(1 : ℚ)/2, 1/2] : List ℚ).sum = 1 :=
  clip_prints_normalized_similarity extOK (fun _ => 1) "m" "p"
    ["A photo of a cat", "A photo of a dog"] "cat.jpg" [1/2, 1/2]
    (by simp) (fun _ => one_pos)
    (by intro img enc h; cases h; rfl)
    (by intro enc l h; cases h; simp [extOK])
    (by simp [clipSimilarity, clipAfterOpen, extOK, softmax]; norm_num)

theorem blipAfterLoad_generate_nil (E : Ext) (processor model q : String)
    (image : ImageV) (inputs : Encoding)
    (h1 : E.blipProcess processor image q = .ok inputs)
    (h2 : E.blipGenerate model inputs = .ok []) :
    blipAfterLoad E processor model image q = .error "IndexError" := by
  unfold blipAfterLoad; simp only [h1]; rw [h2]

/-- Claim C2: whenever `perform_blip_qa` returns an answer, that answer
is exactly `processor.decode(generated_ids[0], skip_special_tokens=True)`
applied to the first generated token sequence, and nothing else. -/
theorem perform_blip_qa_returns_decoded_first_sequence (E : Ext)
    (image_path question a : String)
    (h : performBlipQa E image_path question = .ok a) :
    ∃ processor model image inputs g0 rest,
      E.loadProcessor "BlipProcessor" "Salesforce/blip-vqa-base" =
        .ok processor ∧
      E.loadModel "BlipForQuestionAnswering" "Salesforce/blip-vqa-base" =
        .ok model ∧
      E.openImage image_path = .ok image ∧
      E.blipProcess processor (convertRGB image) question = .ok inputs ∧
      E.blipGenerate model inputs = .ok (g0 :: rest) ∧
      a = E.decode processor g0 true := by
  cases h1 : E.loadProcessor "BlipProcessor" "Salesforce/blip-vqa-base" with
  | error err =>
    rw [performBlipQa_loadProcessor_error E image_path question err h1] at h
    exact absurd h (by simp)
  | ok processor =>
    cases h2 : E.loadModel "BlipForQuestionAnswering" "Salesforce/blip-vqa-base" with
    | error err =>
      rw [performBlipQa_loadModel_error E image_path question processor err
        h1 h2] at h
      exact absurd h (by simp)
    | ok model =>
      cases h3 : E.openImage image_path with
      | error err =>
        rw [performBlipQa_open_error E image_path question processor model err
          h1 h2 h3] at h
        exact absurd h (by simp)
      | ok image =>
        rw [performBlipQa_loads_ok E image_path question processor model image
          h1 h2 h3] at h
        cases h4 : E.blipProcess processor (convertRGB image) question with
        | error err =>
          rw [blipAfterLoad_process_error E processor model question err
            (convertRGB image) h4] at h
          exact absurd h (by simp)
        | ok inputs =>
          cases h5 : E.blipGenerate model inputs with
          | error err =>
            rw [blipAfterLoad_generate_error E processor model question err
              (convertRGB image) inputs h4 h5] at h
            exact absurd h (by simp)
          | ok generated_ids =>
            cases generated_ids with
            | nil =>
              rw [blipAfterLoad_generate_nil E processor model question
                (convertRGB image) inputs h4 h5] at h
              exact absurd h (by simp)
            | cons g0 rest =>
              rw [blipAfterLoad_generate_ok E processor model question
                (convertRGB image) inputs g0 rest h4 h5] at h
              exact ⟨processor, model, image, inputs, g0, rest,
                rfl, rfl, rfl, h4, h5, (Except.ok.inj h).symm⟩


/-- Witness for C2: on the all-succeeding oracle, the notebook's own call
`perform_blip_qa("cat.jpg", "What color is the cat?")` returns the
decoded first generated sequence. -/
theorem perform_blip_qa_returns_decoded_first_sequence_witness :
    ∃ processor model image inputs g0 rest,
      extOK.loadProcessor "BlipProcessor" "Salesforce/blip-vqa-base" =
        .ok processor ∧
      extOK.loadModel "BlipForQuestionAnswering" "Salesforce/blip-vqa-base" =
        .ok model ∧
      extOK.openImage "cat.jpg" = .ok image ∧
      extOK.blipProcess processor (convertRGB image) "What color is the cat?" =
        .ok inputs ∧
      extOK.blipGenerate model inputs = .ok (g0 :: rest) ∧
      "orange and white" = extOK.decode processor g0 true :=
  perform_blip_qa_returns_decoded_first_sequence extOK "cat.jpg"
    "What color is the cat?" "orange and white" rfl

/-- Claim C3: the notebook defines no exception handling: no cell or
function contains a `try`/`except` statement, and any failure raised by
the external library during a model download, the image-file load, the
preprocessing, or the inference propagates unchanged out of the CLIP
pipeline and out of `perform_blip_qa`. -/
theorem no_exception_handling :
    (allStmtLists.all (fun l => l.all (fun s => s ≠ StmtKind.tryK)) = true) ∧
    (∀ (E : Ext) (e : ℚ → ℚ) (err : String),
      E.loadModel "CLIPModel" "openai/clip-vit-base-patch32" = .error err →
      clipCell1 E e = .error err) ∧
    (∀ (E : Ext) (e : ℚ → ℚ) (model err : String),
      E.loadModel "CLIPModel" "openai/clip-vit-base-patch32" = .ok model →
      E.loadProcessor "CLIPProcessor" "openai/clip-vit-base-patch32" =
        .error err →
      clipCell1 E e = .error err) ∧
    (∀ (E : Ext) (e : ℚ → ℚ) (mdl proc : String) (texts : List String)
       (path err : String),
      E.openImage path = .error err →
      clipSimilarity E e mdl proc texts path = .error err) ∧
    (∀ (E : Ext) (e : ℚ → ℚ) (mdl proc : String) (texts : List String)
       (path : String) (image : ImageV) (err : String),
      E.openImage path = .ok image →
      E.clipProcess proc texts image = .error err →
      clipSimilarity E e mdl proc texts path = .error err) ∧
    (∀ (E : Ext) (e : ℚ → ℚ) (mdl proc : String) (texts : List String)
       (path : String) (image : ImageV) (inputs : Encoding) (err : String),
      E.openImage path = .ok image →
      E.clipProcess proc texts image = .ok inputs →
      E.clipForward mdl inputs = .error err →
      clipSimilarity E e mdl proc texts path = .error err) ∧
    (∀ (E : Ext) (p q err : String),
      E.loadProcessor "BlipProcessor" "Salesforce/blip-vqa-base" = .error err →
      performBlipQa E p q = .error err) ∧
    (∀ (E : Ext) (p q processor err : String),
      E.loadProcessor "BlipProcessor" "Salesforce/blip-vqa-base" =
        .ok processor →
      E.loadModel "BlipForQuestionAnswering" "Salesforce/blip-vqa-base" =
        .error err →
      performBlipQa E p q = .error err) ∧
    (∀ (E : Ext) (p q processor model err : String),
      E.loadProcessor "BlipProcessor" "Salesforce/blip-vqa-base" =
        .ok processor →
      E.loadModel "BlipForQuestionAnswering" "Salesforce/blip-vqa-base" =
        .ok model →
      E.openImage p = .error err →
      performBlipQa E p q = .error err) ∧
    (∀ (E : Ext) (p q processor model err : String) (image : ImageV),
      E.loadProcessor "BlipProcessor" "Salesforce/blip-vqa-base" =
        .ok processor →
      E.loadModel "BlipForQuestionAnswering" "Salesforce/blip-vqa-base" =
        .ok model →
      E.openImage p = .ok image →
      E.blipProcess processor (convertRGB image) q = .error err →
      performBlipQa E p q = .error err) ∧
    (∀ (E : Ext) (p q processor model err : String) (image : ImageV)
       (inputs : Encoding),
      E.loadProcessor "BlipProcessor" "Salesforce/blip-vqa-base" =
        .ok processor →
      E.loadModel "BlipForQuestionAnswering" "Salesforce/blip-vqa-base" =
        .ok model →
      E.openImage p = .ok image →
      E.blipProcess processor (convertRGB image) q = .ok inputs →
      E.blipGenerate model inputs = .error err →
      performBlipQa E p q = .error err) := by
  refine ⟨by decide, ?_, ?_, ?_, ?_, ?_, ?_, ?_, ?_, ?_, ?_⟩
  · exact fun E e err h => clipCell1_loadModel_error E e err h
  · exact fun E e model err h1 h2 =>
      clipCell1_loadProcessor_error E e model err h1 h2
  · exact fun E e mdl proc texts path err h =>
      clipSimilarity_open_error E e mdl proc texts path err h
  · intro E e mdl proc texts path image err h1 h2
    rw [clipSimilarity_open_ok E e mdl proc texts path image h1]
    exact clipAfterOpen_process_error E e mdl proc texts image err h2
  · intro E e mdl proc texts path image inputs err h1 h2 h3
    rw [clipSimilarity_open_ok E e mdl proc texts path image h1]
    exact clipAfterOpen_forward_error E e mdl proc texts image inputs err h2 h3
  · exact fun E p q err h => performBlipQa_loadProcessor_error E p q err h
  · exact fun E p q processor err h1 h2 =>
      performBlipQa_loadModel_error E p q processor err h1 h2
  · exact fun E p q processor model err h1 h2 h3 =>
      performBlipQa_open_error E p q processor model err h1 h2 h3
  · intro E p q processor model err image h1 h2 h3 h4
    rw [performBlipQa_loads_ok E p q processor model image h1 h2 h3]
    exact blipAfterLoad_process_error E processor model q err
      (convertRGB image) h4
  · intro E p q processor model err image inputs h1 h2 h3 h4 h5
    rw [performBlipQa_loads_ok E p q processor model image h1 h2 h3]
    exact blipAfterLoad_generate_error E processor model q err
      (convertRGB image) inputs h4 h5

/-- Witness for C3: on an oracle whose downloads fail, the first CLIP
cell surfaces the very connection error; on an oracle whose file open
fails, `perform_blip_qa` surfaces the very file error. -/
theorem no_exception_handling_witness :
    clipCell1 extNoNet (fun _ => 1) = .error "ConnectionError" ∧
    performBlipQa extNoFile "cat.jpg" "What color is the cat?" =
      .error "FileNotFoundError" :=
  ⟨no_exception_handling.2.1 extNoNet (fun _ => 1) "ConnectionError" rfl,
   no_exception_handling.2.2.2.2.2.2.2.2.1 extNoFile "cat.jpg"
     "What color is the cat?" "Salesforce/blip-vqa-base"
     "Salesforce/blip-vqa-base" "FileNotFoundError" rfl rfl rfl⟩

/-- An oracle whose CLIP forward pass answers differently depending on
which model handle it is applied to: handle `"modelA"` yields a single
logit, any other handle one zero logit per encoded text. -/
def extStateful : Ext :=
  { extOK with
    clipForward := fun mdl enc =>
      .ok (if mdl = "modelA" then [0] else enc.txts.map (fun _ => 0)) }

/-- Claim C4, counterexample: the image-text similarity operation is not
stateless — the second CLIP cell instantiates nothing (no
`from_pretrained` statement at all), so the model it runs is state
carried over from the first cell, and its printed result depends on that
inherited binding: two different model handles left behind by the first
cell give two different printed distributions. -/
theorem similarity_carries_state_cex :
    clipCell2Stmts.all (fun s => !(isLoad s)) = true ∧
    clipCell2 extStateful (fun _ => 1) "modelA" "proc" = .ok [1] ∧
    clipCell2 extStateful (fun _ => 1) "modelB" "proc" =
      .ok [(1 : ℚ)/2, 1/2] ∧
    ([(1 : ℚ)] : List ℚ) ≠ [(1 : ℚ)/2, 1/2] := by
  refine ⟨by decide, ?_, ?_,
    fun h => absurd (congrArg List.length h) (by decide)⟩
  · simp [clipCell2, clipSimilarity, clipAfterOpen, extStateful, extOK,
      softmax]
  · simp [clipCell2, clipSimilarity, clipAfterOpen, extStateful, extOK,
      softmax]
    norm_num

/-- Claim C4 as amended: `perform_blip_qa` is one-shot and stateless —
its body opens by instantiating a fresh processor and a fresh model (the
two `from_pretrained` statements come first and each occurs exactly once,
so no retry and no caching), its single inference call is not repeated
(no batching loop), and threading the notebook's global namespace through
the call, of any type whatsoever, returns it unchanged alongside an
answer that does not depend on it.  Each CLIP similarity cell is likewise
one-shot — a single forward pass, no load statement repeated — but the
image-text similarity operation is not stateless across cells: the second
CLIP cell contains no load at all and by construction runs the similarity
pipeline on the `model` and `processor` bindings the first cell left
behind. -/
theorem one_shot_statefulness :
    (performBlipQaStmts.take 2 =
      [StmtKind.loadK "BlipProcessor" "Salesforce/blip-vqa-base",
       StmtKind.loadK "BlipForQuestionAnswering" "Salesforce/blip-vqa-base"]) ∧
    (performBlipQaStmts.count
      (StmtKind.loadK "BlipProcessor" "Salesforce/blip-vqa-base") = 1) ∧
    (performBlipQaStmts.count
      (StmtKind.loadK "BlipForQuestionAnswering" "Salesforce/blip-vqa-base")
      = 1) ∧
    (performBlipQaStmts.filter isInfer = [StmtKind.generateK false]) ∧
    (clipCell1Stmts.count
      (StmtKind.loadK "CLIPModel" "openai/clip-vit-base-patch32") = 1) ∧
    (clipCell1Stmts.count
      (StmtKind.loadK "CLIPProcessor" "openai/clip-vit-base-patch32") = 1) ∧
    (clipCell1Stmts.filter isInfer = [StmtKind.forwardK true]) ∧
    (clipCell2Stmts.filter isLoad = []) ∧
    (clipCell2Stmts.filter isInfer = [StmtKind.forwardK true]) ∧
    (∀ (E : Ext) (e : ℚ → ℚ) (model processor : String),
      clipCell2 E e model processor =
        clipSimilarity E e model processor
          ["A photo of a cat", "A photo of a dog"] "cat_dog.jpg") ∧
    (∀ (σ : Type) (E : Ext) (g : σ) (p q : String),
      performBlipQaSt E g p q =
        (performBlipQa E p q).map (fun a => (a, g))) := by
  refine ⟨rfl, by decide, by decide, rfl, by decide, by decide, rfl, rfl,
    rfl, fun E e model processor => rfl, ?_⟩
  intro σ E g p q
  unfold performBlipQaSt performBlipQa blipAfterLoad
  cases E.loadProcessor "BlipProcessor" "Salesforce/blip-vqa-base" with
  | error err => rfl
  | ok processor =>
    dsimp only
    cases E.loadModel "BlipForQuestionAnswering" "Salesforce/blip-vqa-base" with
    | error err => rfl
    | ok model =>
      dsimp only
      cases E.openImage p with
      | error err => rfl
      | ok image =>
        dsimp only
        cases E.blipProcess processor (convertRGB image) q with
        | error err => rfl
        | ok inputs =>
          dsimp only
          cases E.blipGenerate model inputs with
          | error err => rfl
          | ok generated_ids =>
            dsimp only
            cases generated_ids with
            | nil => rfl
            | cons g0 rest => rfl

/-- Witness for C4: threading a concrete numeric global state through the
notebook's own call leaves it unchanged. -/
theorem one_shot_statefulness_witness :
    performBlipQaSt extOK (0 : Nat) "cat.jpg" "What color is the cat?" =
      (performBlipQa extOK "cat.jpg" "What color is the cat?").map
        (fun a => (a, (0 : Nat))) :=
  one_shot_statefulness.2.2.2.2.2.2.2.2.2.2 Nat extOK 0 "cat.jpg"
    "What color is the cat?"

/-- Whether a statement is an `Image.open` file read. -/
def isOpen : StmtKind → Bool
  | .openK _ => true
  | _ => false

/-- Whether a list of pipeline phases is nondecreasing. -/
def monotonePhases : List Nat → Bool
  | [] => true
  | [_] => true
  | a :: b :: t => decide (a ≤ b) && monotonePhases (b :: t)

/-- Claim C5, counterexample: the second CLIP similarity cell is an
inference cell (it contains a forward pass) yet contains no model-load
statement at all, so it does not perform the sequence
`load model → preprocess → infer → display`. -/
theorem inference_cells_pipeline_cex :
    clipCell2Stmts.any isInfer = true ∧
    clipCell2Stmts.all (fun s => !(isLoad s)) = true ∧
    phaseSeq clipCell2Stmts = [1, 1, 2, 3] := by decide

/-- Claim C5 as amended: the first CLIP cell and the `perform_blip_qa`
body each run the full pipeline `load model → preprocess input → run
inference → post-process/display`, in that order; the second CLIP cell
runs `preprocess → infer → display` in that order, with no load step of
its own (it reuses the model loaded by the first cell); in every
inference cell the phases are nondecreasing. -/
theorem inference_cells_pipeline_order :
    phaseSeq clipCell1Stmts = [0, 0, 1, 1, 2, 3] ∧
    phaseSeq performBlipQaStmts = [0, 0, 1, 1, 1, 2, 3] ∧
    phaseSeq clipCell2Stmts = [1, 1, 2, 3] ∧
    monotonePhases (phaseSeq clipCell1Stmts) = true ∧
    monotonePhases (phaseSeq performBlipQaStmts) = true ∧
    monotonePhases (phaseSeq clipCell2Stmts) = true := by decide

/-- Claim C6, counterexample: the complete list of `from_pretrained`
calls in the code comprises exactly two CLIP loads and two BLIP loads —
no LXMERT class or checkpoint is ever loaded, so LXMERT is never
invoked. -/
theorem models_invoked_cex :
    (allStmtLists.map loads).flatten =
      [("CLIPModel", "openai/clip-vit-base-patch32"),
       ("CLIPProcessor", "openai/clip-vit-base-patch32"),
       ("BlipProcessor", "Salesforce/blip-vqa-base"),
       ("BlipForQuestionAnswering", "Salesforce/blip-vqa-base")] ∧
    ((allStmtLists.map loads).flatten).all
      (fun cn => cn.1 != "LxmertForQuestionAnswering" &&
        cn.1 != "LxmertModel" && cn.1 != "LxmertForPreTraining" &&
        cn.2 != "unc-nlp/lxmert-base-uncased" &&
        cn.2 != "unc-nlp/lxmert-vqa-uncased") = true := by decide

/-- Claim C6 as amended: the only pretrained models the code invokes are
CLIP and BLIP — each loaded via `from_pretrained` and called for
inference — while LXMERT appears only in markdown links and is never
loaded or called. -/
theorem models_invoked :
    (allStmtLists.map loads).flatten =
      [("CLIPModel", "openai/clip-vit-base-patch32"),
       ("CLIPProcessor", "openai/clip-vit-base-patch32"),
       ("BlipProcessor", "Salesforce/blip-vqa-base"),
       ("BlipForQuestionAnswering", "Salesforce/blip-vqa-base")] ∧
    clipCell1Stmts.contains (StmtKind.forwardK true) = true ∧
    performBlipQaStmts.contains (StmtKind.generateK false) = true := by decide

/-- Claim C7, counterexample: the first of the four code cells is
imports only — it instantiates no pretrained model and runs no
inference — so not every code cell performs the
instantiate/transform/infer/print pattern. -/
theorem four_cells_cex :
    notebookCodeCells.head? = some importsCellStmts ∧
    importsCellStmts.all (fun s => !(isLoad s)) = true ∧
    importsCellStmts.all (fun s => !(isInfer s)) = true := by decide

/-- Claim C7 as amended: the notebook has exactly four code cells; the
first holds only imports; the second (first CLIP cell) instantiates a
model and its processor, transforms one image/text input, runs
inference, and prints; the third runs the same transform/infer/print
steps but instantiates nothing, reusing the second cell's model; the
fourth defines and calls `perform_blip_qa`, whose body instantiates a
model and its processor, transforms, infers, and decodes. -/
theorem four_cells_structure :
    notebookCodeCells.length = 4 ∧
    importsCellStmts.all (fun s => s = StmtKind.importK) = true ∧
    (loads clipCell1Stmts).length = 2 ∧
    clipCell1Stmts.contains StmtKind.processK = true ∧
    clipCell1Stmts.contains (StmtKind.forwardK true) = true ∧
    clipCell1Stmts.contains StmtKind.printSoftmaxK = true ∧
    loads clipCell2Stmts = [] ∧
    clipCell2Stmts.contains StmtKind.processK = true ∧
    clipCell2Stmts.contains (StmtKind.forwardK true) = true ∧
    clipCell2Stmts.contains StmtKind.printSoftmaxK = true ∧
    blipCellStmts.contains StmtKind.defQaK = true ∧
    blipCellStmts.contains StmtKind.callQaK = true ∧
    (loads performBlipQaStmts).length = 2 ∧
    performBlipQaStmts.contains StmtKind.processK = true ∧
    performBlipQaStmts.contains (StmtKind.generateK false) = true ∧
    performBlipQaStmts.contains (StmtKind.decodeK true) = true := by decide

/-- Claim C8: the complete list of external interactions in the code —
every statement that touches anything beyond in-process computation — is
exactly: the four pretrained-weight fetches by name, the local image
reads of `"cat.jpg"`, `"cat_dog.jpg"` and the caller-supplied
`image_path`, and the stdout prints of tensors or decoded strings.
There is no file write and no other input or output channel. -/
theorem external_interactions_enumerated :
    (allStmtLists.map (fun l => l.filter externalKind)).flatten =
      [StmtKind.loadK "CLIPModel" "openai/clip-vit-base-patch32",
       StmtKind.loadK "CLIPProcessor" "openai/clip-vit-base-patch32",
       StmtKind.openK (some "cat.jpg"),
       StmtKind.printSoftmaxK,
       StmtKind.openK (some "cat_dog.jpg"),
       StmtKind.printSoftmaxK,
       StmtKind.printK, StmtKind.printK,
       StmtKind.loadK "BlipProcessor" "Salesforce/blip-vqa-base",
       StmtKind.loadK "BlipForQuestionAnswering" "Salesforce/blip-vqa-base",
       StmtKind.openK none] ∧
    allStmtLists.flatten.filter isOpen =
      [StmtKind.openK (some "cat.jpg"),
       StmtKind.openK (some "cat_dog.jpg"),
       StmtKind.openK none] ∧
    allStmtLists.flatten.filter isLoad =
      [StmtKind.loadK "CLIPModel" "openai/clip-vit-base-patch32",
       StmtKind.loadK "CLIPProcessor" "openai/clip-vit-base-patch32",
       StmtKind.loadK "BlipProcessor" "Salesforce/blip-vqa-base",
       StmtKind.loadK "BlipForQuestionAnswering" "Salesforce/blip-vqa-base"]
    := by decide

/-- Claim C9: `perform_blip_qa` converts the opened image to RGB before
preprocessing — whatever mode the file had, the image handed to the
processor has mode `"RGB"` — while neither CLIP cell performs any such
conversion: the CLIP pipeline hands the processor the image exactly as
opened. -/
theorem blip_converts_rgb_clip_does_not :
    (∀ i : ImageV, (convertRGB i).mode = "RGB") ∧
    (∀ (E : Ext) (p q processor model : String) (image : ImageV),
      E.loadProcessor "BlipProcessor" "Salesforce/blip-vqa-base" =
        .ok processor →
      E.loadModel "BlipForQuestionAnswering" "Salesforce/blip-vqa-base" =
        .ok model →
      E.openImage p = .ok image →
      performBlipQa E p q =
        blipAfterLoad E processor model (convertRGB image) q) ∧
    (∀ (E : Ext) (e : ℚ → ℚ) (mdl proc : String) (texts : List String)
       (path : String) (image : ImageV),
      E.openImage path = .ok image →
      clipSimilarity E e mdl proc texts path =
        clipAfterOpen E e mdl proc texts image) ∧
    performBlipQaStmts.contains StmtKind.convertRGBK = true ∧
    clipCell1Stmts.contains StmtKind.convertRGBK = false ∧
    clipCell2Stmts.contains StmtKind.convertRGBK = false := by
  refine ⟨fun i => rfl, ?_, ?_, by decide, by decide, by decide⟩
  · exact fun E p q processor model image h1 h2 h3 =>
      performBlipQa_loads_ok E p q processor model image h1 h2 h3
  · exact fun E e mdl proc texts path image h =>
      clipSimilarity_open_ok E e mdl proc texts path image h

/-- Witness for C9: an RGBA image converts to mode RGB, and on the
all-succeeding oracle (whose files open as grayscale mode `"L"`),
`perform_blip_qa` reaches its processor with the RGB-converted image. -/
theorem blip_converts_rgb_clip_does_not_witness :
    (convertRGB { mode := "RGBA", pix := 3 }).mode = "RGB" ∧
    performBlipQa extOK "cat.jpg" "What color is the cat?" =
      blipAfterLoad extOK "Salesforce/blip-vqa-base"
        "Salesforce/blip-vqa-base"
        (convertRGB { mode := "L", pix := 7 }) "What color is the cat?" :=
  ⟨blip_converts_rgb_clip_does_not.1 { mode := "RGBA", pix := 3 },
   blip_converts_rgb_clip_does_not.2.1 extOK "cat.jpg"
     "What color is the cat?" "Salesforce/blip-vqa-base"
     "Salesforce/blip-vqa-base" { mode := "L", pix := 7 } rfl rfl rfl⟩

/-- Claim C10: the single inference call in `perform_blip_qa` is the
`generate` under `torch.no_grad()` — gradient tracking off — while the
single inference call in each CLIP similarity cell is a forward pass
with gradient tracking left on (its printed output carries a
`grad_fn`). -/
theorem blip_no_grad_clip_grad :
    performBlipQaStmts.filter isInfer = [StmtKind.generateK false] ∧
    clipCell1Stmts.filter isInfer = [StmtKind.forwardK true] ∧
    clipCell2Stmts.filter isInfer = [StmtKind.forwardK true] := by decide

end Lab10
